import Mathlib

/-!
Verification development for the Delivery Summary Dashboard backend
(`backend/server.py`).

The backend is a FastAPI + MongoDB CRUD service.  We give a shallow
embedding of its data model and request handlers:

* MongoDB collections become Lean lists held in a `DB` record; documents
  become structures.  `find_one(q)` is `List.find?`, `delete_one(q)` is
  `List.eraseP`, `update_one(q, $set)` modifies the first match,
  `insert_one` appends, `count_documents(q)` is `(List.filter q).length`,
  `find(q).sort(k, dir).to_list(n)` is filter, then a stable insertion
  sort by the key, then `List.take n`.
* Timestamps (`datetime` values) are modelled as `Int` seconds; currency
  amounts (Python floats that are only summed and divided) as `ℚ`.
* MongoDB compares the `date` strings (BSON UTF-8 strings) by
  codepoint-lexicographic order; we model that order on `String` through
  the list of codepoints, which the kernel can evaluate.
* Each async handler becomes a pure function from the current `DB` (plus
  the data that FastAPI / uuid / the clock supply) to a result and,
  where the handler writes, an updated `DB`.  Handlers that can raise
  `HTTPException` return `Except ApiError _`.
-/

/-- Error taxonomy of the HTTP layer: the `HTTPException` status codes the
handlers raise (400 / 401 / 403 / 404, and 500 for the unreachable
identity provider). -/
inductive ApiError where
  | badRequest
  | unauthorized
  | forbidden
  | notFound
  | serviceUnavailable
deriving DecidableEq, Repr

/-- Mirror of the `User` pydantic model (`server.py` lines 33-39). -/
structure User where
  id : String
  email : String
  name : String
  picture : String
  role : String
  created_at : Int
deriving DecidableEq, Repr

/-- Mirror of the `Session` pydantic model (`server.py` lines 46-51). -/
structure Session where
  id : String
  user_id : String
  session_token : String
  expires_at : Int
  created_at : Int
deriving DecidableEq, Repr

/-- Mirror of the `DeliveryEntry` pydantic model (`server.py` lines 53-65). -/
structure DeliveryEntry where
  id : String
  user_id : String
  date : String
  challan_amount : ℚ
  delivered_amount : ℚ
  pending_amount : ℚ
  vehicle_required : Int
  vehicle_confirmed : Int
  vehicle_missing : Int
  notes : String
  created_at : Int
  updated_at : Int
deriving DecidableEq, Repr

/-- Mirror of `DeliveryEntryCreate` (`server.py` lines 67-75). -/
structure DeliveryEntryCreate where
  date : String
  challan_amount : ℚ
  delivered_amount : ℚ
  pending_amount : ℚ
  vehicle_required : Int
  vehicle_confirmed : Int
  vehicle_missing : Int
  notes : String
deriving DecidableEq, Repr

/-- Mirror of `DeliveryEntryUpdate` (`server.py` lines 77-85): every field
optional, `none` meaning "not supplied" (Python `None` values are dropped
from the `$set` document). -/
structure DeliveryEntryUpdate where
  date : Option String := none
  challan_amount : Option ℚ := none
  delivered_amount : Option ℚ := none
  pending_amount : Option ℚ := none
  vehicle_required : Option Int := none
  vehicle_confirmed : Option Int := none
  vehicle_missing : Option Int := none
  notes : Option String := none
deriving DecidableEq, Repr

/-- Mirror of `DashboardSummary` (`server.py` lines 87-96). -/
structure DashboardSummary where
  total_challan_amount : ℚ
  total_delivered_amount : ℚ
  total_pending_amount : ℚ
  total_vehicle_required : Int
  total_vehicle_confirmed : Int
  total_vehicle_missing : Int
  delivery_rate : ℚ
  vehicle_utilization_rate : ℚ
  recent_entries_count : Nat
deriving DecidableEq, Repr

/-- One group produced by the chart-data aggregation pipeline
(`server.py` lines 377-386): the group key `_id` is the entry `date`
string, the other fields are per-group sums. -/
structure DailyBucket where
  date : String
  challan_amount : ℚ
  delivered_amount : ℚ
  pending_amount : ℚ
  vehicle_required : Int
  vehicle_confirmed : Int
deriving DecidableEq, Repr

/-- Result shape of `GET /admin/export` (`server.py` lines 415-431).  The
handler strips the MongoDB `_id` key from every document; our documents
never carry `_id`, so the stripping is the identity here. -/
structure ExportData where
  export_date : Int
  entries : List DeliveryEntry
  users : List User
deriving DecidableEq, Repr

/-- The three MongoDB collections used by the backend
(`db.users`, `db.sessions`, `db.delivery_entries`). -/
structure DB where
  users : List User
  sessions : List Session
  delivery_entries : List DeliveryEntry
deriving DecidableEq, Repr

/-- `timedelta(days=7)` in seconds (session expiry, cookie max-age, and
the recent-entries window of the summary endpoint). -/
def sevenDaysSeconds : Int := 7 * 24 * 60 * 60

/-- `timedelta(days=30)` in seconds (chart-data window). -/
def thirtyDaysSeconds : Int := 30 * 24 * 60 * 60

/-- The single hardcoded admin address (`server.py` line 164). -/
def adminEmail : String := "jibon.ipe@gmail.com"

/-- Codepoint key of a string: BSON compares UTF-8 strings bytewise,
which on strings like the ISO dates used here is codepoint-lexicographic
order; we compare the codepoint lists. -/
def strKey (s : String) : List Nat := s.data.map Char.toNat

/-- Ascending string order used by the chart pipeline sort `{"_id": 1}`. -/
def dateLe (a b : String) : Prop := strKey a ≤ strKey b

instance : DecidableRel dateLe := fun a b =>
  inferInstanceAs (Decidable (strKey a ≤ strKey b))

instance : IsTotal String dateLe := ⟨fun a b => le_total (strKey a) (strKey b)⟩

instance : IsTrans String dateLe := ⟨fun _ _ _ h1 h2 => le_trans h1 h2⟩

/-- Order of `.sort("date", -1)` on entries: descending by `date`. -/
def entryDateGe (e1 e2 : DeliveryEntry) : Prop := strKey e2.date ≤ strKey e1.date

instance : DecidableRel entryDateGe := fun e1 e2 =>
  inferInstanceAs (Decidable (strKey e2.date ≤ strKey e1.date))

instance : IsTotal DeliveryEntry entryDateGe :=
  ⟨fun e1 e2 => (le_total (strKey e2.date) (strKey e1.date)).elim Or.inl Or.inr⟩

instance : IsTrans DeliveryEntry entryDateGe := ⟨fun _ _ _ h1 h2 => le_trans h2 h1⟩

/-- Order of `.sort("created_at", -1)` on entries: descending by `created_at`. -/
def entryCreatedGe (e1 e2 : DeliveryEntry) : Prop := e2.created_at ≤ e1.created_at

instance : DecidableRel entryCreatedGe := fun e1 e2 =>
  inferInstanceAs (Decidable (e2.created_at ≤ e1.created_at))

instance : IsTotal DeliveryEntry entryCreatedGe :=
  ⟨fun e1 e2 => (le_total e2.created_at e1.created_at).elim Or.inl Or.inr⟩

instance : IsTrans DeliveryEntry entryCreatedGe := ⟨fun _ _ _ h1 h2 => le_trans h2 h1⟩

/-- `update_one({...}, {"$set": ...})`: rewrite the first list element
satisfying the filter, leave everything else in place. -/
def modifyFirst (p : α → Bool) (f : α → α) : List α → List α
  | [] => []
  | a :: as => if p a then f a :: as else a :: modifyFirst p f as

/-- `get_current_user` (`server.py` lines 99-126): resolve an optional
session token (cookie or bearer, already extracted) to a user.  A session
found but past `expires_at` is deleted on the spot (lazy cleanup) and the
request is unauthenticated.  Returns the resolved user (or `none`)
together with the possibly updated `DB`. -/
def get_current_user (db : DB) (now : Int) (session_token : Option String) :
    Option User × DB :=
  match session_token with
  | none => (none, db)
  | some t =>
    match db.sessions.find? (fun s => s.session_token == t) with
    | none => (none, db)
    | some s =>
      if s.expires_at < now then
        -- delete_one by the found document's identity: the first match
        (none, { db with sessions := db.sessions.eraseP (fun s2 => s2.session_token == t) })
      else
        match db.users.find? (fun u => u.id == s.user_id) with
        | none => (none, db)
        | some u => (some u, db)

/-- Identity data the external provider returns for a valid session id
(`user_data` JSON in `create_session`). -/
structure AuthUserData where
  email : String
  name : String
  picture : String
  session_token : String
deriving DecidableEq, Repr

/-- Outcome of the `httpx` call to the identity provider: either an HTTP
response with a status code and body, or a network error
(`httpx.RequestError`). -/
inductive ProviderResult where
  | response (status : Nat) (data : AuthUserData)
  | networkErr
deriving DecidableEq, Repr

/-- `POST /auth/session` (`server.py` lines 143-201).  `sessionId` is the
`X-Session-ID` header if present; `provider` is the identity provider's
behaviour for that id; `newUserId` / `newSessionId` stand for the
generated uuid4 values; `now` is the clock.  Missing header → 400;
network error → 500; provider status ≠ 200 → 400; otherwise reuse or
create the user (role fixed at creation from `adminEmail`) and always
insert a fresh session with the provider-issued token and 7-day expiry. -/
def create_session (db : DB) (sessionId : Option String) (provider : ProviderResult)
    (newUserId newSessionId : String) (now : Int) : Except ApiError (User × DB) :=
  match sessionId with
  | none => .error .badRequest
  | some _ =>
    match provider with
    | .networkErr => .error .serviceUnavailable
    | .response st d =>
      if st ≠ 200 then .error .badRequest
      else
        let role := if d.email = adminEmail then "admin" else "user"
        let sess := fun (uid : String) =>
          { id := newSessionId
            user_id := uid
            session_token := d.session_token
            expires_at := now + sevenDaysSeconds
            created_at := now : Session }
        match db.users.find? (fun u => u.email == d.email) with
        | some u =>
          .ok (u, { db with sessions := db.sessions ++ [sess u.id] })
        | none =>
          let u : User :=
            { id := newUserId
              email := d.email
              name := d.name
              picture := d.picture
              role := role
              created_at := now }
          .ok (u, { db with
                      users := db.users ++ [u]
                      sessions := db.sessions ++ [sess u.id] })

/-- `POST /entries` (`server.py` lines 228-239), after `require_auth` has
resolved the requester: build the entry owned by the requester and insert
it. -/
def create_entry (db : DB) (user : User) (data : DeliveryEntryCreate)
    (newId : String) (now : Int) : DeliveryEntry × DB :=
  let e : DeliveryEntry :=
    { id := newId
      user_id := user.id
      date := data.date
      challan_amount := data.challan_amount
      delivered_amount := data.delivered_amount
      pending_amount := data.pending_amount
      vehicle_required := data.vehicle_required
      vehicle_confirmed := data.vehicle_confirmed
      vehicle_missing := data.vehicle_missing
      notes := data.notes
      created_at := now
      updated_at := now }
  (e, { db with delivery_entries := db.delivery_entries ++ [e] })

/-- `GET /entries` (`server.py` lines 241-247): the requester's own
entries, sorted by `date` descending, truncated by `to_list(1000)`. -/
def get_user_entries (db : DB) (user : User) : List DeliveryEntry :=
  (List.insertionSort entryDateGe
    (db.delivery_entries.filter (fun e => e.user_id == user.id))).take 1000

/-- `GET /entries/{id}` (`server.py` lines 249-262): 404 if the id is
absent, then 403 unless the requester owns the entry or is an admin. -/
def get_entry (db : DB) (user : User) (entry_id : String) :
    Except ApiError DeliveryEntry :=
  match db.delivery_entries.find? (fun e => e.id == entry_id) with
  | none => .error .notFound
  | some e =>
    if e.user_id ≠ user.id ∧ user.role ≠ "admin" then .error .forbidden
    else .ok e

/-- Merge of the `$set` document built by `update_entry` into a stored
entry: every supplied field overwrites, every `none` field keeps the
stored value, and `updated_at` is always stamped. -/
def applyUpdate (e : DeliveryEntry) (u : DeliveryEntryUpdate) (now : Int) :
    DeliveryEntry :=
  { id := e.id
    user_id := e.user_id
    date := u.date.getD e.date
    challan_amount := u.challan_amount.getD e.challan_amount
    delivered_amount := u.delivered_amount.getD e.delivered_amount
    pending_amount := u.pending_amount.getD e.pending_amount
    vehicle_required := u.vehicle_required.getD e.vehicle_required
    vehicle_confirmed := u.vehicle_confirmed.getD e.vehicle_confirmed
    vehicle_missing := u.vehicle_missing.getD e.vehicle_missing
    notes := u.notes.getD e.notes
    created_at := e.created_at
    updated_at := now }

/-- `PUT /entries/{id}` (`server.py` lines 264-284): 404 / 403 as in
`get_entry`, then `$set` the supplied fields plus `updated_at` on the
first matching document and return the re-read document.  The inner
`notFound` branch is unreachable (the update keeps the id). -/
def update_entry (db : DB) (user : User) (entry_id : String)
    (upd : DeliveryEntryUpdate) (now : Int) :
    Except ApiError (DeliveryEntry × DB) :=
  match db.delivery_entries.find? (fun e => e.id == entry_id) with
  | none => .error .notFound
  | some e =>
    if e.user_id ≠ user.id ∧ user.role ≠ "admin" then .error .forbidden
    else
      let entries2 := modifyFirst (fun e2 => e2.id == entry_id)
        (fun e2 => applyUpdate e2 upd now) db.delivery_entries
      match entries2.find? (fun e2 => e2.id == entry_id) with
      | none => .error .notFound
      | some e2 => .ok (e2, { db with delivery_entries := entries2 })

/-- `DELETE /entries/{id}` (`server.py` lines 286-300): 404 / 403 as in
`get_entry`, then delete the first matching document. -/
def delete_entry (db : DB) (user : User) (entry_id : String) :
    Except ApiError DB :=
  match db.delivery_entries.find? (fun e => e.id == entry_id) with
  | none => .error .notFound
  | some e =>
    if e.user_id ≠ user.id ∧ user.role ≠ "admin" then .error .forbidden
    else .ok { db with
      delivery_entries := db.delivery_entries.eraseP (fun e2 => e2.id == entry_id) }

/-- Sum of `challan_amount` over a list of entries. -/
def totalChallan (es : List DeliveryEntry) : ℚ :=
  (es.map (fun e => e.challan_amount)).sum

/-- Sum of `delivered_amount` over a list of entries. -/
def totalDelivered (es : List DeliveryEntry) : ℚ :=
  (es.map (fun e => e.delivered_amount)).sum

/-- Sum of `pending_amount` over a list of entries. -/
def totalPending (es : List DeliveryEntry) : ℚ :=
  (es.map (fun e => e.pending_amount)).sum

/-- Sum of `vehicle_required` over a list of entries. -/
def totalVehicleRequired (es : List DeliveryEntry) : Int :=
  (es.map (fun e => e.vehicle_required)).sum

/-- Sum of `vehicle_confirmed` over a list of entries. -/
def totalVehicleConfirmed (es : List DeliveryEntry) : Int :=
  (es.map (fun e => e.vehicle_confirmed)).sum

/-- Sum of `vehicle_missing` over a list of entries. -/
def totalVehicleMissing (es : List DeliveryEntry) : Int :=
  (es.map (fun e => e.vehicle_missing)).sum

/-- `GET /dashboard/summary` (`server.py` lines 303-361): a `$group`
over the whole collection (empty collection → empty aggregation result →
the all-zero summary), rates guarded against zero denominators, and the
count of entries created in the last 7 days. -/
def get_dashboard_summary (db : DB) (now : Int) : DashboardSummary :=
  if db.delivery_entries.isEmpty then
    { total_challan_amount := 0
      total_delivered_amount := 0
      total_pending_amount := 0
      total_vehicle_required := 0
      total_vehicle_confirmed := 0
      total_vehicle_missing := 0
      delivery_rate := 0
      vehicle_utilization_rate := 0
      recent_entries_count := 0 }
  else
    let es := db.delivery_entries
    let tc := totalChallan es
    let vr := totalVehicleRequired es
    { total_challan_amount := tc
      total_delivered_amount := totalDelivered es
      total_pending_amount := totalPending es
      total_vehicle_required := vr
      total_vehicle_confirmed := totalVehicleConfirmed es
      total_vehicle_missing := totalVehicleMissing es
      delivery_rate := if 0 < tc then totalDelivered es / tc * 100 else 0
      vehicle_utilization_rate :=
        if 0 < vr then (totalVehicleConfirmed es : ℚ) / (vr : ℚ) * 100 else 0
      recent_entries_count :=
        (es.filter (fun e => now - sevenDaysSeconds ≤ e.created_at)).length }

/-- The `$match` stage of the chart pipeline: entries created in the
last 30 days. -/
def windowEntries (db : DB) (now : Int) : List DeliveryEntry :=
  db.delivery_entries.filter (fun e => now - thirtyDaysSeconds ≤ e.created_at)

/-- The `$group` stage evaluated at one date key: sums over the window
entries carrying that `date`. -/
def bucketFor (es : List DeliveryEntry) (d : String) : DailyBucket :=
  let grp := es.filter (fun e => e.date == d)
  { date := d
    challan_amount := (grp.map (fun e => e.challan_amount)).sum
    delivered_amount := (grp.map (fun e => e.delivered_amount)).sum
    pending_amount := (grp.map (fun e => e.pending_amount)).sum
    vehicle_required := (grp.map (fun e => e.vehicle_required)).sum
    vehicle_confirmed := (grp.map (fun e => e.vehicle_confirmed)).sum }

/-- `GET /dashboard/chart-data` (`server.py` lines 363-396): `$match` the
30-day window on `created_at`, `$group` by the `date` field, `$sort` the
groups ascending by the date string, `to_list(100)`. -/
def get_chart_data (db : DB) (now : Int) : List DailyBucket :=
  let matched := windowEntries db now
  let dates := (matched.map (fun e => e.date)).dedup
  ((List.insertionSort dateLe dates).map (bucketFor matched)).take 100

/-- `GET /admin/entries` (`server.py` lines 399-405), after
`require_admin`: all entries sorted by `created_at` descending,
truncated by `to_list(1000)`. -/
def get_all_entries (db : DB) : List DeliveryEntry :=
  (List.insertionSort entryCreatedGe db.delivery_entries).take 1000

/-- `GET /admin/users` (`server.py` lines 407-413), after
`require_admin`: all users, truncated by `to_list(1000)`. -/
def get_all_users (db : DB) : List User :=
  db.users.take 1000

/-- `GET /admin/export` (`server.py` lines 415-431), after
`require_admin`: entries truncated at 10000, users at 1000, `_id`
stripped (a no-op in this model). -/
def export_data (db : DB) (now : Int) : ExportData :=
  { export_date := now
    entries := db.delivery_entries.take 10000
    users := db.users.take 1000 }

/-! ### Concrete fixture data used by witnesses and counterexamples -/

/-- Fixture: an ordinary (non-admin) user owning the fixture entries. -/
def userU : User :=
  { id := "u1", email := "owner@example.com", name := "Owner", picture := ""
    role := "user", created_at := 0 }

/-- Fixture: a second ordinary user, not the owner of any fixture entry. -/
def userV : User :=
  { id := "u2", email := "other@example.com", name := "Other", picture := ""
    role := "user", created_at := 0 }

/-- Fixture: a session for `userU` that expired at time 10. -/
def sessExpired : Session :=
  { id := "s1", user_id := "u1", session_token := "tok", expires_at := 10
    created_at := 0 }

/-- Fixture entry owned by `userU` (challan 60000, delivered 25000). -/
def entry1 : DeliveryEntry :=
  { id := "e1", user_id := "u1", date := "2024-01-02"
    challan_amount := 60000, delivered_amount := 25000, pending_amount := 35000
    vehicle_required := 0, vehicle_confirmed := 5, vehicle_missing := 0
    notes := "", created_at := 0, updated_at := 0 }

/-- Fixture entry owned by `userU` (challan 40000, delivered 20000). -/
def entry2 : DeliveryEntry :=
  { entry1 with
    id := "e2"
    date := "2024-01-01"
    challan_amount := 40000
    delivered_amount := 20000
    pending_amount := 20000
    created_at := 5 }

/-- Fixture database: two users, one expired session, two entries whose
totals are challan 100000 and delivered 45000 with vehicle_required 0. -/
def dbMain : DB :=
  { users := [userU, userV], sessions := [sessExpired]
    delivery_entries := [entry1, entry2] }

/-- Fixture: the empty database. -/
def dbEmptyDB : DB := { users := [], sessions := [], delivery_entries := [] }

/-- Fixture: identity data the provider returns for a fresh ordinary user. -/
def authDataFresh : AuthUserData :=
  { email := "new@example.com", name := "New", picture := "", session_token := "newtok" }

/-- Fixture: identity data for the email of the already stored `userU`. -/
def authDataExisting : AuthUserData :=
  { email := "owner@example.com", name := "Owner2", picture := "p", session_token := "tok2" }

/-- The i-th of a family of pairwise distinct date strings. -/
def cxDate (i : Nat) : String := String.mk (List.replicate i 'a')

/-- An entry created at time 0 carrying the i-th distinct date. -/
def cxEntry7 (i : Nat) : DeliveryEntry :=
  { id := "c7", user_id := "u1", date := cxDate i
    challan_amount := 0, delivered_amount := 0, pending_amount := 0
    vehicle_required := 0, vehicle_confirmed := 0, vehicle_missing := 0
    notes := "", created_at := 0, updated_at := 0 }

/-- Database with 101 recent entries on 101 pairwise distinct dates. -/
def dbC7x : DB :=
  { users := [], sessions := [], delivery_entries := (List.range 101).map cxEntry7 }

/-- The i-th of a family of pairwise distinct entry ids. -/
def cxId (i : Nat) : String := String.mk (List.replicate i 'x')

/-- An entry owned by `userU` carrying the i-th distinct id. -/
def cxEntry9 (i : Nat) : DeliveryEntry :=
  { id := cxId i, user_id := "u1", date := "2024-01-01"
    challan_amount := 0, delivered_amount := 0, pending_amount := 0
    vehicle_required := 0, vehicle_confirmed := 0, vehicle_missing := 0
    notes := "", created_at := 0, updated_at := 0 }

/-- Database with 1001 pairwise distinct entries all owned by `userU`. -/
def dbC9x : DB :=
  { users := [], sessions := [], delivery_entries := (List.range 1001).map cxEntry9 }

/-! ### Helper lemmas -/

/-- Distinct indices give distinct `cxDate` strings. -/
theorem cxDate_injective : Function.Injective cxDate := by
  intro i j h
  have hdata : List.replicate i 'a' = List.replicate j 'a' := congrArg String.data h
  have := congrArg List.length hdata
  simpa using this

/-- Distinct indices give distinct `cxId` strings. -/
theorem cxId_injective : Function.Injective cxId := by
  intro i j h
  have hdata : List.replicate i 'x' = List.replicate j 'x' := congrArg String.data h
  have := congrArg List.length hdata
  simpa using this

/-- The chart endpoint never returns more than 100 buckets. -/
theorem chart_length_le (db : DB) (now : Int) :
    (get_chart_data db now).length ≤ 100 := by
  simp only [get_chart_data]
  exact
    List.length_take_le 100
      ((List.insertionSort dateLe
        (((windowEntries db now).map (fun e => e.date)).dedup)).map
          (bucketFor (windowEntries db now)))

/-- The own-entries listing never returns more than 1000 entries. -/
theorem user_entries_length_le (db : DB) (user : User) :
    (get_user_entries db user).length ≤ 1000 := by
  simp only [get_user_entries]
  exact
    List.length_take_le 1000
      (List.insertionSort entryDateGe
        (db.delivery_entries.filter (fun e => e.user_id == user.id)))

/-- If every stored session carrying token `t` is expired at `now`, then
resolving `t` yields no user. -/
theorem gcu_expired_none (db : DB) (now : Int) (t : String)
    (h : ∀ s2 ∈ db.sessions, s2.session_token = t → s2.expires_at < now) :
    (get_current_user db now (some t)).1 = none := by
  cases hf : db.sessions.find? (fun s => s.session_token == t) with
  | none => simp [get_current_user, hf]
  | some s0 =>
    have hp := List.find?_some hf
    have hmem : s0 ∈ db.sessions := List.mem_of_find?_eq_some hf
    have hlt : s0.expires_at < now := h s0 hmem (by simpa using hp)
    simp [get_current_user, hf, hlt]

/-- `find?` after `modifyFirst` with a predicate the modification
preserves: the first match is the modified original first match. -/
theorem find?_modifyFirst (p : α → Bool) (f : α → α)
    (hpf : ∀ a, p a = true → p (f a) = true) :
    ∀ l : List α, List.find? p (modifyFirst p f l) = (List.find? p l).map f := by
  intro l
  induction l with
  | nil => simp [modifyFirst]
  | cons a as ih =>
    by_cases hpa : p a = true
    · simp [modifyFirst, hpa, List.find?_cons_of_pos, hpf a hpa]
    · have hpa2 : p a = false := by simpa using hpa
      simp [modifyFirst, hpa2, List.find?_cons_of_neg, ih]

/-- `modifyFirst` leaves every element the predicate rejects in the list. -/
theorem mem_modifyFirst_of_not (p : α → Bool) (f : α → α) {a : α} :
    ∀ {l : List α}, a ∈ l → p a = false → a ∈ modifyFirst p f l := by
  intro l
  induction l with
  | nil => intro h; exact absurd h (List.not_mem_nil a)
  | cons b bs ih =>
    intro hmem hpa
    rcases List.mem_cons.mp hmem with h | h
    · subst h
      simp [modifyFirst, hpa]
    · by_cases hpb : p b = true
      · simp [modifyFirst, hpb, List.mem_cons, h]
      · have hpb2 : p b = false := by simpa using hpb
        simp only [modifyFirst, hpb2, Bool.false_eq_true, if_false, List.mem_cons]
        exact Or.inr (ih h hpa)

/-! ### Claims -/

/-- C1: resolving a credential whose sessions are all past `expires_at`
yields no user, deletes the session record found for the token (lazy
read-time expiry), and a repeated resolution with the same token is
again unauthenticated. -/
theorem claim_C1_expired_session_unauthenticated (db : DB) (now : Int) (s : Session)
    (hs : s ∈ db.sessions)
    (hexp : ∀ s2 ∈ db.sessions, s2.session_token = s.session_token → s2.expires_at < now) :
    (get_current_user db now (some s.session_token)).1 = none ∧
    (get_current_user db now (some s.session_token)).2.sessions =
      db.sessions.eraseP (fun s2 => s2.session_token == s.session_token) ∧
    (get_current_user db now (some s.session_token)).2.sessions.length + 1 =
      db.sessions.length ∧
    (get_current_user (get_current_user db now (some s.session_token)).2 now
      (some s.session_token)).1 = none := by
  have hfs : (db.sessions.find? (fun s2 => s2.session_token == s.session_token)).isSome :=
    List.find?_isSome.mpr ⟨s, hs, by simp⟩
  obtain ⟨s0, hf⟩ := Option.isSome_iff_exists.mp hfs
  have hp := List.find?_some hf
  have htok : s0.session_token = s.session_token := by simpa using hp
  have hmem : s0 ∈ db.sessions := List.mem_of_find?_eq_some hf
  have hlt : s0.expires_at < now := hexp s0 hmem htok
  have hsessions : (get_current_user db now (some s.session_token)).2.sessions =
      db.sessions.eraseP (fun s2 => s2.session_token == s.session_token) := by
    simp [get_current_user, hf, hlt]
  have hlen : (get_current_user db now (some s.session_token)).2.sessions.length + 1 =
      db.sessions.length := by
    rw [hsessions, List.length_eraseP_of_mem hmem (by simp [htok])]
    have hpos : 0 < db.sessions.length := List.length_pos.mpr (List.ne_nil_of_mem hs)
    omega
  refine ⟨gcu_expired_none db now _ hexp, hsessions, hlen, ?_⟩
  apply gcu_expired_none
  intro s2 hs2 ht2
  exact hexp s2 ((List.eraseP_sublist db.sessions).subset (hsessions ▸ hs2)) ht2

/-- C1 witness: in the fixture database the expired session `sessExpired`
resolves to no user at time 20, is deleted, and stays unauthenticated. -/
theorem claim_C1_witness :
    (get_current_user dbMain 20 (some sessExpired.session_token)).1 = none ∧
    (get_current_user dbMain 20 (some sessExpired.session_token)).2.sessions =
      dbMain.sessions.eraseP (fun s2 => s2.session_token == sessExpired.session_token) ∧
    (get_current_user dbMain 20 (some sessExpired.session_token)).2.sessions.length + 1 =
      dbMain.sessions.length ∧
    (get_current_user (get_current_user dbMain 20 (some sessExpired.session_token)).2 20
      (some sessExpired.session_token)).1 = none :=
  claim_C1_expired_session_unauthenticated dbMain 20 sessExpired (by decide) (by decide)

/-- C2: get/update/delete on an entry id apply the same rule: an absent
id is 404 for every requester, and an entry the requester neither owns
nor may see as admin is 403; the 404 check precedes the ownership
check. -/
theorem claim_C2_uniform_authorization (db : DB) (user : User) (entry_id : String)
    (upd : DeliveryEntryUpdate) (now : Int) :
    (db.delivery_entries.find? (fun e => e.id == entry_id) = none →
      get_entry db user entry_id = .error .notFound ∧
      update_entry db user entry_id upd now = .error .notFound ∧
      delete_entry db user entry_id = .error .notFound) ∧
    (∀ e, db.delivery_entries.find? (fun e2 => e2.id == entry_id) = some e →
      e.user_id ≠ user.id → user.role ≠ "admin" →
      get_entry db user entry_id = .error .forbidden ∧
      update_entry db user entry_id upd now = .error .forbidden ∧
      delete_entry db user entry_id = .error .forbidden) := by
  constructor
  · intro hf
    exact ⟨by simp [get_entry, hf], by simp [update_entry, hf], by simp [delete_entry, hf]⟩
  · intro e hf hown hrole
    have hcond : e.user_id ≠ user.id ∧ user.role ≠ "admin" := ⟨hown, hrole⟩
    exact ⟨by simp [get_entry, hf, hcond],
           by simp [update_entry, hf, hcond],
           by simp [delete_entry, hf, hcond]⟩

/-- C2 witness: an absent id is 404 for the non-owner `userV`, and
`entry1` (owned by `userU`) is 403 for the non-admin `userV`, on all
three operations. -/
theorem claim_C2_witness :
    (get_entry dbMain userV "missing" = .error .notFound ∧
      update_entry dbMain userV "missing" {} 7 = .error .notFound ∧
      delete_entry dbMain userV "missing" = .error .notFound) ∧
    (get_entry dbMain userV "e1" = .error .forbidden ∧
      update_entry dbMain userV "e1" {} 7 = .error .forbidden ∧
      delete_entry dbMain userV "e1" = .error .forbidden) :=
  ⟨(claim_C2_uniform_authorization dbMain userV "missing" {} 7).1 (by rfl),
   (claim_C2_uniform_authorization dbMain userV "e1" {} 7).2 entry1 (by rfl)
     (by decide) (by decide)⟩

/-- C3: during session exchange, a not-yet-known email gets a user record
created with role admin exactly when the email is the configured admin
address; an already-known email is returned as stored and the user
collection (hence the stored role) is left unchanged. -/
theorem claim_C3_role_assigned_once (db : DB) (sid : String) (d : AuthUserData)
    (nuid nsid : String) (now : Int) :
    (db.users.find? (fun u => u.email == d.email) = none →
      ∃ u db2,
        create_session db (some sid) (.response 200 d) nuid nsid now = .ok (u, db2) ∧
        u.email = d.email ∧
        u.role = (if d.email = adminEmail then "admin" else "user") ∧
        db2.users = db.users ++ [u]) ∧
    (∀ u0, db.users.find? (fun u => u.email == d.email) = some u0 →
      ∃ db2,
        create_session db (some sid) (.response 200 d) nuid nsid now = .ok (u0, db2) ∧
        db2.users = db.users) := by
  constructor
  · intro hf
    have hres : create_session db (some sid) (.response 200 d) nuid nsid now =
        .ok (⟨nuid, d.email, d.name, d.picture,
                if d.email = adminEmail then "admin" else "user", now⟩,
             ⟨db.users ++ [⟨nuid, d.email, d.name, d.picture,
                if d.email = adminEmail then "admin" else "user", now⟩],
              db.sessions ++ [⟨nsid, nuid, d.session_token, now + sevenDaysSeconds, now⟩],
              db.delivery_entries⟩) := by
      simp [create_session, hf]
    exact ⟨_, _, hres, rfl, rfl, rfl⟩
  · intro u0 hf
    have hres : create_session db (some sid) (.response 200 d) nuid nsid now =
        .ok (u0, ⟨db.users,
              db.sessions ++ [⟨nsid, u0.id, d.session_token, now + sevenDaysSeconds, now⟩],
              db.delivery_entries⟩) := by
      simp [create_session, hf]
    exact ⟨_, hres, rfl⟩

/-- C3 witness: the fresh email of `authDataFresh` (not the admin
address) yields a new user with role "user" appended to the user list,
and the stored email of `userU` is returned unchanged with the user list
untouched. -/
theorem claim_C3_witness :
    (∃ u db2,
      create_session dbEmptyDB (some "x") (.response 200 authDataFresh) "nu" "ns" 0 =
        .ok (u, db2) ∧
      u.email = authDataFresh.email ∧
      u.role = (if authDataFresh.email = adminEmail then "admin" else "user") ∧
      db2.users = dbEmptyDB.users ++ [u]) ∧
    (∃ db2,
      create_session dbMain (some "x") (.response 200 authDataExisting) "nu" "ns" 0 =
        .ok (userU, db2) ∧
      db2.users = dbMain.users) :=
  ⟨(claim_C3_role_assigned_once dbEmptyDB "x" authDataFresh "nu" "ns" 0).1 (by rfl),
   (claim_C3_role_assigned_once dbMain "x" authDataExisting "nu" "ns" 0).2 userU (by rfl)⟩

/-- C8: session creation is 400 without the `X-Session-ID` header, 400
when the provider answers with a non-200 status, 500-unavailable on a
network error, and on success always inserts a fresh session row bearing
the provider-issued token and a 7-day expiry, whether or not the user
already existed. -/
theorem claim_C8_create_session_errors (db : DB) (provider : ProviderResult)
    (sid nuid nsid : String) (d : AuthUserData) (st : Nat) (now : Int) :
    create_session db none provider nuid nsid now = .error .badRequest ∧
    create_session db (some sid) .networkErr nuid nsid now = .error .serviceUnavailable ∧
    (st ≠ 200 →
      create_session db (some sid) (.response st d) nuid nsid now = .error .badRequest) ∧
    (∃ u db2,
      create_session db (some sid) (.response 200 d) nuid nsid now = .ok (u, db2) ∧
      db2.sessions = db.sessions ++
        [{ id := nsid, user_id := u.id, session_token := d.session_token,
           expires_at := now + sevenDaysSeconds, created_at := now }]) := by
  refine ⟨rfl, rfl, ?_, ?_⟩
  · intro hst
    simp [create_session, hst]
  · cases hf : db.users.find? (fun u => u.email == d.email) with
    | none =>
      have hres : create_session db (some sid) (.response 200 d) nuid nsid now =
          .ok (⟨nuid, d.email, d.name, d.picture,
                  if d.email = adminEmail then "admin" else "user", now⟩,
               ⟨db.users ++ [⟨nuid, d.email, d.name, d.picture,
                  if d.email = adminEmail then "admin" else "user", now⟩],
                db.sessions ++ [⟨nsid, nuid, d.session_token, now + sevenDaysSeconds, now⟩],
                db.delivery_entries⟩) := by
        simp [create_session, hf]
      exact ⟨_, _, hres, rfl⟩
    | some u0 =>
      have hres : create_session db (some sid) (.response 200 d) nuid nsid now =
          .ok (u0, ⟨db.users,
                db.sessions ++ [⟨nsid, u0.id, d.session_token, now + sevenDaysSeconds, now⟩],
                db.delivery_entries⟩) := by
        simp [create_session, hf]
      exact ⟨_, _, hres, rfl⟩

/-- C8 witness: the four branches at concrete inputs, with provider
status 500 as the rejected exchange. -/
theorem claim_C8_witness :
    create_session dbMain none (.response 200 authDataFresh) "nu" "ns" 0 =
      .error .badRequest ∧
    create_session dbMain (some "x") .networkErr "nu" "ns" 0 =
      .error .serviceUnavailable ∧
    create_session dbMain (some "x") (.response 500 authDataFresh) "nu" "ns" 0 =
      .error .badRequest ∧
    (∃ u db2,
      create_session dbMain (some "x") (.response 200 authDataFresh) "nu" "ns" 0 =
        .ok (u, db2) ∧
      db2.sessions = dbMain.sessions ++
        [{ id := "ns", user_id := u.id, session_token := authDataFresh.session_token,
           expires_at := (0 : Int) + sevenDaysSeconds, created_at := 0 }]) := by
  have h := claim_C8_create_session_errors dbMain (.response 200 authDataFresh)
    "x" "nu" "ns" authDataFresh 500 0
  exact ⟨h.1, h.2.1, h.2.2.1 (by decide), h.2.2.2⟩

/-- C4: on a non-empty collection, the summary's delivery rate is
100 · delivered / challan when the challan total is positive and 0
otherwise, and the vehicle utilization rate is 100 · confirmed / required
when the required total is positive and 0 otherwise. -/
theorem claim_C4_summary_rates (db : DB) (now : Int) (h : db.delivery_entries ≠ []) :
    (get_dashboard_summary db now).delivery_rate =
      (if 0 < totalChallan db.delivery_entries then
        100 * totalDelivered db.delivery_entries / totalChallan db.delivery_entries
      else 0) ∧
    (get_dashboard_summary db now).vehicle_utilization_rate =
      (if 0 < totalVehicleRequired db.delivery_entries then
        100 * (totalVehicleConfirmed db.delivery_entries : ℚ) /
          (totalVehicleRequired db.delivery_entries : ℚ)
      else 0) := by
  have hne : db.delivery_entries.isEmpty = false := by
    simp [List.isEmpty_iff, h]
  constructor
  · simp only [get_dashboard_summary, hne, Bool.false_eq_true, if_false]
    split <;> ring
  · simp only [get_dashboard_summary, hne, Bool.false_eq_true, if_false]
    split <;> ring

/-- C4 witness: the fixture totals are challan 100000 and delivered
45000, giving delivery rate 45; the required total is 0, so the
utilization rate is 0 even with 10 confirmed vehicles. -/
theorem claim_C4_witness :
    dbMain.delivery_entries ≠ [] ∧
    (get_dashboard_summary dbMain 0).delivery_rate = 45 ∧
    (get_dashboard_summary dbMain 0).vehicle_utilization_rate = 0 := by
  have h := claim_C4_summary_rates dbMain 0 (by decide)
  refine ⟨by decide, ?_, ?_⟩
  · rw [h.1]
    norm_num [totalChallan, totalDelivered, dbMain, entry1, entry2]
  · rw [h.2]
    norm_num [totalVehicleRequired, dbMain, entry1, entry2]

/-- C5: the summary of the empty collection is the all-zero record, and
for any collection a zero challan total or zero required total yields a
zero rate (the guarded branch, so no division by zero is attempted). -/
theorem claim_C5_empty_summary (db : DB) (now : Int) :
    (db.delivery_entries = [] →
      get_dashboard_summary db now =
        { total_challan_amount := 0, total_delivered_amount := 0,
          total_pending_amount := 0, total_vehicle_required := 0,
          total_vehicle_confirmed := 0, total_vehicle_missing := 0,
          delivery_rate := 0, vehicle_utilization_rate := 0,
          recent_entries_count := 0 }) ∧
    (totalChallan db.delivery_entries = 0 →
      (get_dashboard_summary db now).delivery_rate = 0) ∧
    (totalVehicleRequired db.delivery_entries = 0 →
      (get_dashboard_summary db now).vehicle_utilization_rate = 0) := by
  refine ⟨?_, ?_, ?_⟩
  · intro h
    simp [get_dashboard_summary, h]
  · intro h
    by_cases he : db.delivery_entries.isEmpty
    · simp [get_dashboard_summary, he]
    · simp [get_dashboard_summary, he, h]
  · intro h
    by_cases he : db.delivery_entries.isEmpty
    · simp [get_dashboard_summary, he]
    · simp [get_dashboard_summary, he, h]

/-- C5 witness: the empty database produces the all-zero summary and
zero rates. -/
theorem claim_C5_witness :
    get_dashboard_summary dbEmptyDB 0 =
      { total_challan_amount := 0, total_delivered_amount := 0,
        total_pending_amount := 0, total_vehicle_required := 0,
        total_vehicle_confirmed := 0, total_vehicle_missing := 0,
        delivery_rate := 0, vehicle_utilization_rate := 0,
        recent_entries_count := 0 } ∧
    (get_dashboard_summary dbEmptyDB 0).delivery_rate = 0 ∧
    (get_dashboard_summary dbEmptyDB 0).vehicle_utilization_rate = 0 :=
  ⟨(claim_C5_empty_summary dbEmptyDB 0).1 rfl,
   (claim_C5_empty_summary dbEmptyDB 0).2.1 rfl,
   (claim_C5_empty_summary dbEmptyDB 0).2.2 rfl⟩

/-- C6: an authorized partial update returns the stored entry with
exactly the supplied fields overwritten and `updated_at` stamped; `id`,
`user_id` and `created_at` are preserved, every unsupplied field keeps
its prior value, and every other stored entry is untouched. -/
theorem claim_C6_partial_update_frame (db : DB) (user : User) (entry_id : String)
    (upd : DeliveryEntryUpdate) (now : Int) (e : DeliveryEntry)
    (hf : db.delivery_entries.find? (fun e2 => e2.id == entry_id) = some e)
    (hauth : e.user_id = user.id ∨ user.role = "admin") :
    ∃ db2,
      update_entry db user entry_id upd now = .ok (applyUpdate e upd now, db2) ∧
      db2.users = db.users ∧
      db2.sessions = db.sessions ∧
      db2.delivery_entries = modifyFirst (fun e2 => e2.id == entry_id)
        (fun e2 => applyUpdate e2 upd now) db.delivery_entries ∧
      (∀ e2 ∈ db.delivery_entries, (e2.id == entry_id) = false →
        e2 ∈ db2.delivery_entries) ∧
      (applyUpdate e upd now).id = e.id ∧
      (applyUpdate e upd now).user_id = e.user_id ∧
      (applyUpdate e upd now).created_at = e.created_at ∧
      (applyUpdate e upd now).updated_at = now ∧
      (upd.date = none → (applyUpdate e upd now).date = e.date) ∧
      (upd.challan_amount = none →
        (applyUpdate e upd now).challan_amount = e.challan_amount) ∧
      (upd.delivered_amount = none →
        (applyUpdate e upd now).delivered_amount = e.delivered_amount) ∧
      (upd.pending_amount = none →
        (applyUpdate e upd now).pending_amount = e.pending_amount) ∧
      (upd.vehicle_required = none →
        (applyUpdate e upd now).vehicle_required = e.vehicle_required) ∧
      (upd.vehicle_confirmed = none →
        (applyUpdate e upd now).vehicle_confirmed = e.vehicle_confirmed) ∧
      (upd.vehicle_missing = none →
        (applyUpdate e upd now).vehicle_missing = e.vehicle_missing) ∧
      (upd.notes = none → (applyUpdate e upd now).notes = e.notes) := by
  have hcond : ¬(e.user_id ≠ user.id ∧ user.role ≠ "admin") := by tauto
  have hpf : ∀ a : DeliveryEntry, (a.id == entry_id) = true →
      ((applyUpdate a upd now).id == entry_id) = true := fun a ha => ha
  have hfind2 : List.find? (fun e2 => e2.id == entry_id)
      (modifyFirst (fun e2 => e2.id == entry_id) (fun e2 => applyUpdate e2 upd now)
        db.delivery_entries) = some (applyUpdate e upd now) := by
    rw [find?_modifyFirst (fun e2 => e2.id == entry_id)
      (fun e2 => applyUpdate e2 upd now) hpf db.delivery_entries, hf]
    rfl
  refine ⟨⟨db.users, db.sessions, modifyFirst (fun e2 => e2.id == entry_id)
      (fun e2 => applyUpdate e2 upd now) db.delivery_entries⟩,
    ?_, rfl, rfl, rfl, ?_, rfl, rfl, rfl, rfl, ?_, ?_, ?_, ?_, ?_, ?_, ?_, ?_⟩
  · simp [update_entry, hf, hcond, hfind2]
  · intro e2 he2 hne
    exact mem_modifyFirst_of_not (fun e3 => e3.id == entry_id)
      (fun e3 => applyUpdate e3 upd now) he2 hne
  all_goals intro hnone
  all_goals simp [applyUpdate, hnone]

/-- C6 witness: updating `entry1` with only a new `notes` value leaves
every other field unchanged and stamps `updated_at`. -/
theorem claim_C6_witness :
    ∃ db2,
      update_entry dbMain userU "e1" { notes := some "x" } 9 =
        .ok (applyUpdate entry1 { notes := some "x" } 9, db2) ∧
      db2.users = dbMain.users ∧
      db2.sessions = dbMain.sessions ∧
      db2.delivery_entries = modifyFirst (fun e2 => e2.id == "e1")
        (fun e2 => applyUpdate e2 { notes := some "x" } 9) dbMain.delivery_entries ∧
      (∀ e2 ∈ dbMain.delivery_entries, (e2.id == "e1") = false →
        e2 ∈ db2.delivery_entries) ∧
      (applyUpdate entry1 { notes := some "x" } 9).id = entry1.id ∧
      (applyUpdate entry1 { notes := some "x" } 9).user_id = entry1.user_id ∧
      (applyUpdate entry1 { notes := some "x" } 9).created_at = entry1.created_at ∧
      (applyUpdate entry1 { notes := some "x" } 9).updated_at = 9 ∧
      (({ notes := some "x" } : DeliveryEntryUpdate).date = none →
        (applyUpdate entry1 { notes := some "x" } 9).date = entry1.date) ∧
      (({ notes := some "x" } : DeliveryEntryUpdate).challan_amount = none →
        (applyUpdate entry1 { notes := some "x" } 9).challan_amount = entry1.challan_amount) ∧
      (({ notes := some "x" } : DeliveryEntryUpdate).delivered_amount = none →
        (applyUpdate entry1 { notes := some "x" } 9).delivered_amount = entry1.delivered_amount) ∧
      (({ notes := some "x" } : DeliveryEntryUpdate).pending_amount = none →
        (applyUpdate entry1 { notes := some "x" } 9).pending_amount = entry1.pending_amount) ∧
      (({ notes := some "x" } : DeliveryEntryUpdate).vehicle_required = none →
        (applyUpdate entry1 { notes := some "x" } 9).vehicle_required = entry1.vehicle_required) ∧
      (({ notes := some "x" } : DeliveryEntryUpdate).vehicle_confirmed = none →
        (applyUpdate entry1 { notes := some "x" } 9).vehicle_confirmed = entry1.vehicle_confirmed) ∧
      (({ notes := some "x" } : DeliveryEntryUpdate).vehicle_missing = none →
        (applyUpdate entry1 { notes := some "x" } 9).vehicle_missing = entry1.vehicle_missing) ∧
      (({ notes := some "x" } : DeliveryEntryUpdate).notes = none →
        (applyUpdate entry1 { notes := some "x" } 9).notes = entry1.notes) :=
  claim_C6_partial_update_frame dbMain userU "e1" { notes := some "x" } 9 entry1
    (by rfl) (Or.inl rfl)

/-- C7 counterexample: with 101 recent entries on 101 distinct dates, the
pipeline's `to_list(100)` drops a bucket, so some entry created within
the last 30 days has no bucket carrying its date — the claim's "includes
exactly the entries whose created_at lies within the last 30 days" fails
as stated. -/
theorem claim_C7_counterexample :
    ∃ e ∈ dbC7x.delivery_entries,
      (0 : Int) - thirtyDaysSeconds ≤ e.created_at ∧
      ∀ b ∈ get_chart_data dbC7x 0, b.date ≠ e.date := by
  by_contra hcon
  push_neg at hcon
  have hDsub : ∀ d ∈ dbC7x.delivery_entries.map (fun e => e.date),
      d ∈ (get_chart_data dbC7x 0).map (fun b => b.date) := by
    intro d hd
    obtain ⟨e, he, rfl⟩ := List.mem_map.mp hd
    have hwin : (0 : Int) - thirtyDaysSeconds ≤ e.created_at := by
      obtain ⟨i, _, rfl⟩ := List.mem_map.mp he
      show (0 : Int) - thirtyDaysSeconds ≤ 0
      norm_num [thirtyDaysSeconds]
    obtain ⟨b, hb, hbd⟩ := hcon e he hwin
    have hmm : b.date ∈ (get_chart_data dbC7x 0).map (fun b2 : DailyBucket => b2.date) :=
      List.mem_map_of_mem (fun b2 : DailyBucket => b2.date) hb
    rw [hbd] at hmm
    exact hmm
  have hDnodup : (dbC7x.delivery_entries.map (fun e => e.date)).Nodup := by
    have : dbC7x.delivery_entries.map (fun e => e.date) =
        (List.range 101).map cxDate := by
      simp only [dbC7x, List.map_map]
      rfl
    rw [this]
    exact (List.nodup_range 101).map cxDate_injective
  have hle := (hDnodup.subperm hDsub).length_le
  rw [List.length_map, List.length_map] at hle
  have h101 : dbC7x.delivery_entries.length = 101 := by
    simp [dbC7x]
  have h100 := chart_length_le dbC7x 0
  omega

/-- C7 amended: the chart buckets are in ascending date-string order with
at most one bucket per date; every bucket is exactly the per-date sums
over the entries created within the last 30 days (grouped by the
user-supplied `date` field, so same-date entries share one bucket); every
bucket's date comes from such an entry; and — the amendment — provided
the window holds at most 100 distinct dates, every entry created within
the last 30 days is represented by the bucket of its date. -/
theorem claim_C7_chart_grouping (db : DB) (now : Int) :
    List.Pairwise (fun b1 b2 => dateLe b1.date b2.date) (get_chart_data db now) ∧
    ((get_chart_data db now).map (fun b => b.date)).Nodup ∧
    (∀ b ∈ get_chart_data db now, b = bucketFor (windowEntries db now) b.date) ∧
    (∀ b ∈ get_chart_data db now, ∃ e ∈ windowEntries db now, e.date = b.date) ∧
    (((windowEntries db now).map (fun e => e.date)).dedup.length ≤ 100 →
      ∀ e ∈ windowEntries db now, ∃ b ∈ get_chart_data db now, b.date = e.date) := by
  have hsort : List.Pairwise dateLe
      (List.insertionSort dateLe (((windowEntries db now).map (fun e => e.date)).dedup)) :=
    List.sorted_insertionSort dateLe _
  have hperm : (List.insertionSort dateLe
      (((windowEntries db now).map (fun e => e.date)).dedup)).Perm
      (((windowEntries db now).map (fun e => e.date)).dedup) :=
    List.perm_insertionSort dateLe _
  have hnodups : (List.insertionSort dateLe
      (((windowEntries db now).map (fun e => e.date)).dedup)).Nodup :=
    hperm.nodup_iff.mpr (List.nodup_dedup _)
  refine ⟨?_, ?_, ?_, ?_, ?_⟩
  · have hpwb : List.Pairwise (fun b1 b2 => dateLe b1.date b2.date)
        ((List.insertionSort dateLe
          (((windowEntries db now).map (fun e => e.date)).dedup)).map
            (bucketFor (windowEntries db now))) :=
      List.pairwise_map.mpr hsort
    exact hpwb.sublist (List.take_sublist 100 _)
  · have hfun : ((fun b : DailyBucket => b.date) ∘ bucketFor (windowEntries db now)) = id := by
      funext d
      rfl
    have hmapdates : (get_chart_data db now).map (fun b => b.date) =
        (List.insertionSort dateLe
          (((windowEntries db now).map (fun e => e.date)).dedup)).take 100 := by
      simp only [get_chart_data, List.map_take, List.map_map, hfun, List.map_id]
    rw [hmapdates]
    exact hnodups.sublist (List.take_sublist 100 _)
  · intro b hb
    have hb2 : b ∈ (List.insertionSort dateLe
        (((windowEntries db now).map (fun e => e.date)).dedup)).map
          (bucketFor (windowEntries db now)) :=
      List.take_subset 100 _ hb
    obtain ⟨d, _, rfl⟩ := List.mem_map.mp hb2
    rfl
  · intro b hb
    have hb2 : b ∈ (List.insertionSort dateLe
        (((windowEntries db now).map (fun e => e.date)).dedup)).map
          (bucketFor (windowEntries db now)) :=
      List.take_subset 100 _ hb
    obtain ⟨d, hd, rfl⟩ := List.mem_map.mp hb2
    have hd2 : d ∈ ((windowEntries db now).map (fun e => e.date)).dedup :=
      hperm.mem_iff.mp hd
    obtain ⟨e, he, hed⟩ := List.mem_map.mp (List.mem_dedup.mp hd2)
    exact ⟨e, he, hed⟩
  · intro hcap e he
    have hd : e.date ∈ ((windowEntries db now).map (fun e2 => e2.date)).dedup :=
      List.mem_dedup.mpr (List.mem_map_of_mem (fun e2 => e2.date) he)
    have hd2 : e.date ∈ List.insertionSort dateLe
        (((windowEntries db now).map (fun e2 => e2.date)).dedup) :=
      hperm.mem_iff.mpr hd
    have hlen : ((List.insertionSort dateLe
        (((windowEntries db now).map (fun e2 => e2.date)).dedup)).map
          (bucketFor (windowEntries db now))).length ≤ 100 := by
      rw [List.length_map, hperm.length_eq]
      exact hcap
    refine ⟨bucketFor (windowEntries db now) e.date, ?_, rfl⟩
    show bucketFor (windowEntries db now) e.date ∈ get_chart_data db now
    simp only [get_chart_data]
    rw [List.take_of_length_le hlen]
    exact List.mem_map_of_mem (bucketFor (windowEntries db now)) hd2

/-- C7 witness: the fixture window holds two distinct dates (well under
the cap), so both fixture entries are represented by a bucket of their
date. -/
theorem claim_C7_witness :
    ((windowEntries dbMain 20).map (fun e => e.date)).dedup.length ≤ 100 ∧
    (∃ b ∈ get_chart_data dbMain 20, b.date = entry1.date) ∧
    (∃ b ∈ get_chart_data dbMain 20, b.date = entry2.date) :=
  ⟨by decide,
   (claim_C7_chart_grouping dbMain 20).2.2.2.2 (by decide) entry1 (by decide),
   (claim_C7_chart_grouping dbMain 20).2.2.2.2 (by decide) entry2 (by decide)⟩

set_option maxRecDepth 8192 in
/-- C9 counterexample: with 1001 entries all owned by `userU`, the
listing's `to_list(1000)` drops one of them, so some entry created by
`userU` is absent from `listForOwner(userU)` — the containment part of
the claim fails as stated. -/
theorem claim_C9_counterexample :
    ∃ e ∈ dbC9x.delivery_entries,
      e.user_id = userU.id ∧ e ∉ get_user_entries dbC9x userU := by
  by_contra hcon
  push_neg at hcon
  have hsub : dbC9x.delivery_entries ⊆ get_user_entries dbC9x userU := by
    intro e he
    have hu : e.user_id = userU.id := by
      obtain ⟨i, _, rfl⟩ := List.mem_map.mp he
      rfl
    exact hcon e he hu
  have hnodup : dbC9x.delivery_entries.Nodup := by
    refine List.Nodup.map ?_ (List.nodup_range 1001)
    intro i j hij
    exact cxId_injective (congrArg DeliveryEntry.id hij)
  have hle := (hnodup.subperm hsub).length_le
  have h1001 : dbC9x.delivery_entries.length = 1001 := by
    simp [dbC9x]
  have h1000 := user_entries_length_le dbC9x userU
  omega

/-- C9 amended: an entry of owner U appears in U's listing provided U has
at most 1000 stored entries (the listing truncates at 1000); the listing
is ordered by date descending; and an entry never appears in the listing
of a different non-admin user. -/
theorem claim_C9_owner_listing (db : DB) (u v : User) (e : DeliveryEntry)
    (he : e ∈ db.delivery_entries) :
    (e.user_id = u.id →
      (db.delivery_entries.filter (fun x => x.user_id == u.id)).length ≤ 1000 →
      e ∈ get_user_entries db u) ∧
    List.Pairwise entryDateGe (get_user_entries db u) ∧
    (e.user_id ≠ v.id → v.role ≠ "admin" → e ∉ get_user_entries db v) := by
  refine ⟨?_, ?_, ?_⟩
  · intro hu hlen
    have hmemf : e ∈ db.delivery_entries.filter (fun x => x.user_id == u.id) :=
      List.mem_filter.mpr ⟨he, by simp [hu]⟩
    have hperm := List.perm_insertionSort entryDateGe
      (db.delivery_entries.filter (fun x => x.user_id == u.id))
    have hlen2 : (List.insertionSort entryDateGe
        (db.delivery_entries.filter (fun x => x.user_id == u.id))).length ≤ 1000 := by
      rw [hperm.length_eq]
      exact hlen
    show e ∈ (List.insertionSort entryDateGe
      (db.delivery_entries.filter (fun x => x.user_id == u.id))).take 1000
    rw [List.take_of_length_le hlen2]
    exact hperm.mem_iff.mpr hmemf
  · have hsorted : List.Pairwise entryDateGe (List.insertionSort entryDateGe
        (db.delivery_entries.filter (fun x => x.user_id == u.id))) :=
      List.sorted_insertionSort entryDateGe _
    exact hsorted.sublist (List.take_sublist 1000 _)
  · intro hne _ hmem
    have hmem2 : e ∈ List.insertionSort entryDateGe
        (db.delivery_entries.filter (fun x => x.user_id == v.id)) :=
      List.take_subset 1000 _ hmem
    have hmem3 : e ∈ db.delivery_entries.filter (fun x => x.user_id == v.id) :=
      (List.perm_insertionSort entryDateGe _).mem_iff.mp hmem2
    have := (List.mem_filter.mp hmem3).2
    exact hne (by simpa using this)

/-- C9 witness: `entry1` (owner `userU`, two stored entries, under the
cap) appears in `userU`'s listing, the listing is date-descending, and
`entry1` is absent from the non-admin `userV`'s listing. -/
theorem claim_C9_witness :
    entry1 ∈ get_user_entries dbMain userU ∧
    List.Pairwise entryDateGe (get_user_entries dbMain userU) ∧
    entry1 ∉ get_user_entries dbMain userV := by
  have h := claim_C9_owner_listing dbMain userU userV entry1 (by decide)
  exact ⟨h.1 rfl (by decide), h.2.1, h.2.2 (by decide) (by decide)⟩

/-- C10: every list-returning operation truncates at a fixed cap — 1000
for the own-entries listing and the admin entry/user listings, 100 for
the chart buckets, 10000/1000 for the exported entries/users; the result
length is exactly the source length clipped at the cap, so any excess is
dropped without error. -/
theorem claim_C10_list_truncation (db : DB) (u : User) (now : Int) :
    (get_user_entries db u).length =
      min (db.delivery_entries.filter (fun e => e.user_id == u.id)).length 1000 ∧
    (get_all_entries db).length = min db.delivery_entries.length 1000 ∧
    (get_all_users db).length = min db.users.length 1000 ∧
    (get_chart_data db now).length =
      min ((windowEntries db now).map (fun e => e.date)).dedup.length 100 ∧
    (export_data db now).entries.length = min db.delivery_entries.length 10000 ∧
    (export_data db now).users.length = min db.users.length 1000 := by
  refine ⟨?_, ?_, ?_, ?_, ?_, ?_⟩
  · rw [get_user_entries, List.length_take,
      (List.perm_insertionSort entryDateGe _).length_eq, Nat.min_comm]
  · rw [get_all_entries, List.length_take,
      (List.perm_insertionSort entryCreatedGe _).length_eq, Nat.min_comm]
  · rw [get_all_users, List.length_take, Nat.min_comm]
  · simp only [get_chart_data]
    rw [List.length_take, List.length_map,
      (List.perm_insertionSort dateLe _).length_eq, Nat.min_comm]
  · simp only [export_data]
    rw [List.length_take, Nat.min_comm]
  · simp only [export_data]
    rw [List.length_take, Nat.min_comm]
